import Mathlib

/- Shallow embedding of the booking lifecycle and pricing logic of
   src/script.js and src/supabase-schema.sql from the
   AidoJ/New-Rejuvenator-Platform repository. JS numbers are modelled as
   rationals; the arithmetic the source performs on the inputs considered
   here is exact in binary floating point, so rational arithmetic agrees
   with it. -/

namespace Rejuvenator

/-- Statuses the bookings table CHECK constraint allows
(src/supabase-schema.sql, line 63). -/
inductive DbStatus
  | requested
  | confirmed
  | declined
  | completed
  | cancelled
deriving DecidableEq, Repr

/-- Values taken by the client-side requestStatus state in PaymentForm
(src/script.js, lines 748, 762 and 797). -/
inductive ClientStatus
  | pending
  | accepted
  | timeout
deriving DecidableEq, Repr, BEq

/-- One entry of the SERVICES catalog (src/script.js, lines 16 to 22). -/
structure Service where
  id : Nat
  name : String
  baseDuration : Rat
  basePrice : Rat
  increment : Rat
  incrementPrice : Rat
deriving DecidableEq, Repr

/-- The first SERVICES catalog entry (src/script.js, line 17). -/
def stressbuster : Service :=
  { id := 1, name := "Stressbuster", baseDuration := 60, basePrice := 80,
    increment := 30, incrementPrice := 40 }

/-- The SERVICES array (src/script.js, lines 16 to 22). -/
def SERVICES : List Service :=
  [stressbuster,
   { id := 2, name := "Sports Massage", baseDuration := 60, basePrice := 90,
     increment := 30, incrementPrice := 45 },
   { id := 3, name := "Deep Tissue", baseDuration := 60, basePrice := 100,
     increment := 30, incrementPrice := 50 },
   { id := 4, name := "Swedish Relaxation", baseDuration := 60, basePrice := 85,
     increment := 30, incrementPrice := 42 },
   { id := 5, name := "Prenatal", baseDuration := 60, basePrice := 95,
     increment := 30, incrementPrice := 47 }]

/-- calculatePrice from ServiceStep (src/script.js, lines 382 to 387). A null
service is modelled as none and yields 0; otherwise the result is the base
price plus the number of increments beyond the base duration times the
increment price, with no validation of the duration. -/
def calculatePrice (service : Option Service) (duration : Rat) : Rat :=
  match service with
  | none => 0
  | some s =>
      let additionalTime := duration - s.baseDuration
      let additionalIncrements := additionalTime / s.increment
      s.basePrice + additionalIncrements * s.incrementPrice

/-- A therapist row as selected in TherapistStep (src/script.js, line 574). -/
structure Therapist where
  id : String
  name : String
  email : String
deriving DecidableEq, Repr

/-- The bookingData client state of BookingFlow (src/script.js,
lines 276 to 288). -/
structure BookingData where
  address : String
  lat : Option Rat
  lon : Option Rat
  service : Option Service
  duration : Rat
  date : String
  time : String
  therapist : Option Therapist
  parking : String
  roomDetails : String
  price : Rat
deriving DecidableEq, Repr

/-- Initial bookingData state (src/script.js, lines 276 to 288). -/
def emptyBookingData : BookingData :=
  { address := "", lat := none, lon := none, service := none, duration := 60,
    date := "", time := "", therapist := none, parking := "",
    roomDetails := "", price := 0 }

/-- The ServiceStep submit handler: stores the chosen service and duration and
snapshots the price computed by calculatePrice (src/script.js,
lines 389 to 397). -/
def serviceStepSubmit (d : BookingData) (service : Option Service)
    (duration : Rat) : BookingData :=
  { d with service := service, duration := duration,
           price := calculatePrice service duration }

/-- A row of the bookings table as inserted by createBookingRequest
(src/script.js, lines 768 to 786). -/
structure Booking where
  customerId : String
  therapistId : String
  serviceId : Nat
  duration : Rat
  date : String
  time : String
  address : String
  lat : Option Rat
  lon : Option Rat
  parking : String
  roomDetails : String
  price : Rat
  status : DbStatus
deriving DecidableEq, Repr

/-- createBookingRequest (src/script.js, lines 766 to 803): inserts a bookings
row carrying the snapshotted price, with status requested. Reading the id off
a null service or therapist would throw in the source, so those cases yield
none here. -/
def createBookingRequest (userId : String) (d : BookingData) : Option Booking :=
  match d.service, d.therapist with
  | some sv, some th =>
      some { customerId := userId, therapistId := th.id, serviceId := sv.id,
             duration := d.duration, date := d.date, time := d.time,
             address := d.address, lat := d.lat, lon := d.lon,
             parking := d.parking, roomDetails := d.roomDetails,
             price := d.price, status := DbStatus.requested }
  | _, _ => none

/-- The PaymentForm countdown state: requestStatus and timeRemaining
(src/script.js, lines 748 to 749). -/
structure ClientState where
  status : ClientStatus
  timeRemaining : Nat
deriving DecidableEq, Repr

/-- Initial PaymentForm state: requestStatus pending and timeRemaining 120
(src/script.js, lines 748 to 749). -/
def initialClientState : ClientState :=
  { status := ClientStatus.pending, timeRemaining := 120 }

/-- One evaluation of the countdown effect (src/script.js, lines 755 to 764):
while pending with time left, decrement the counter; once the counter is 0 and
the request is still pending, set the status to timeout; otherwise change
nothing. -/
def tick (s : ClientState) : ClientState :=
  if s.status = ClientStatus.pending ∧ 0 < s.timeRemaining then
    { s with timeRemaining := s.timeRemaining - 1 }
  else if s.timeRemaining = 0 ∧ s.status = ClientStatus.pending then
    { s with status := ClientStatus.timeout }
  else s

/-- The simulated therapist response scheduled 5 seconds after creation
(src/script.js, lines 796 to 798): it sets requestStatus to accepted
unconditionally, whatever the current status is. -/
def simulatedAccept (s : ClientState) : ClientState :=
  { s with status := ClientStatus.accepted }

/-- The countdown trace when no therapist response ever arrives: one tick per
second starting from the initial state. -/
def pendingRun : Nat → ClientState
  | 0 => initialClientState
  | n + 1 => tick (pendingRun n)

/-- The customer-flow trace after a successful creation: one tick per second,
except that the simulated accept fires at the 5 second mark (src/script.js,
lines 795 to 798). -/
def customerRun : Nat → ClientState
  | 0 => initialClientState
  | n + 1 =>
      if n + 1 = 5 then simulatedAccept (customerRun n)
      else tick (customerRun n)

/-- handleBookingResponse from TherapistDashboard (src/script.js, lines 1031
to 1044): an unconditional update of the status column to the given
response, with no check of the current status. -/
def handleBookingResponse (b : Booking) (response : DbStatus) : Booking :=
  { b with status := response }

/-- The status value the Accept button passes to handleBookingResponse
(src/script.js, line 1110). -/
def therapistAcceptResponse : DbStatus := DbStatus.confirmed

/-- The status value the Decline button passes to handleBookingResponse
(src/script.js, line 1116). -/
def therapistDeclineResponse : DbStatus := DbStatus.declined

/-- A payments table row as inserted by handlePayment (src/script.js,
lines 837 to 844). -/
structure PaymentRecord where
  stripePaymentId : String
  amount : Rat
  status : String
deriving DecidableEq, Repr

/-- The outcome of stripe.createPaymentMethod as consumed by handlePayment
(src/script.js, lines 819 to 826). -/
inductive PaymentResult
  | success (paymentMethodId : String)
  | failure (message : String)
deriving DecidableEq, Repr

/-- The state handlePayment reads and writes: the bookings row, the
snapshotted flow price, the client-side request status and countdown, the
error banner, the processing flag and the payments inserted so far. -/
structure PaymentFormState where
  booking : Booking
  price : Rat
  requestStatus : ClientStatus
  timeRemaining : Nat
  error : String
  processing : Bool
  payments : List PaymentRecord
deriving DecidableEq, Repr

/-- handlePayment (src/script.js, lines 805 to 854). The guard returns with no
change unless stripe is ready and the request status is accepted. On a stripe
failure only the error banner and the processing flag change. On success the
bookings row is updated to confirmed and a completed payments row for the
flow price is inserted. -/
def handlePayment (stripeReady : Bool) (s : PaymentFormState)
    (r : PaymentResult) : PaymentFormState :=
  if stripeReady = false ∨ s.requestStatus ≠ ClientStatus.accepted then s
  else
    match r with
    | PaymentResult.failure msg => { s with error := msg, processing := false }
    | PaymentResult.success pmId =>
        { s with error := "",
                 processing := false,
                 booking := { s.booking with status := DbStatus.confirmed },
                 payments := s.payments ++
                   [{ stripePaymentId := pmId, amount := s.price,
                      status := "completed" }] }

/-- Enabled condition of the Pay button (src/script.js, line 950): stripe
loaded, not processing, and the request status is accepted. -/
def payButtonEnabled (stripeReady : Bool) (s : PaymentFormState) : Bool :=
  stripeReady && !s.processing && (s.requestStatus == ClientStatus.accepted)

/-- The InvalidDuration error demanded by the spec (section 7). -/
inductive PricingError
  | invalidDuration
deriving DecidableEq, Repr

/-- Modelled from the spec: computePrice (spec section 4.1) must fail with
InvalidDuration if durationMinutes is below tier.baseDurationMinutes or the
excess over the base duration is not a whole number of increments, and must
otherwise return the base price plus that many increment prices. The source
function calculatePrice has no such validation; this definition exists only
to compare the demanded contract with the source. -/
def computePriceSpec (tier : Service) (duration : Rat) : Except PricingError Rat :=
  let q := (duration - tier.baseDuration) / tier.increment
  if duration < tier.baseDuration ∨ q.den ≠ 1 then
    Except.error PricingError.invalidDuration
  else
    Except.ok (tier.basePrice + q * tier.incrementPrice)

/-- A concrete therapist used in sample flows. -/
def tess : Therapist := { id := "t1", name := "Tess", email := "tess@example.com" }

/-- Sample bookingData with address, slot and therapist chosen, before the
service step. -/
def bookedTemplate : BookingData :=
  { emptyBookingData with
      address := "1 Test St", lat := some 1, lon := some 2,
      date := "2026-01-02", time := "10:00", therapist := some tess }

/-- Sample bookingData whose duration 45 violates the base 60 increment 30
rule of the chosen tier. -/
def invalidDurationData : BookingData :=
  serviceStepSubmit bookedTemplate (some stressbuster) 45

/-- A sample bookings row as freshly inserted, status requested. -/
def requestedBooking : Booking :=
  { customerId := "c1", therapistId := "t1", serviceId := 1, duration := 60,
    date := "2026-01-02", time := "10:00", address := "1 Test St",
    lat := some 1, lon := some 2, parking := "", roomDetails := "",
    price := 80, status := DbStatus.requested }

/-- The sample bookings row after it has reached confirmed. -/
def confirmedBooking : Booking :=
  { requestedBooking with status := DbStatus.confirmed }

/-- A sample PaymentForm state in which the simulated accept has arrived and
payment is offered. -/
def acceptedFormState : PaymentFormState :=
  { booking := requestedBooking, price := 80,
    requestStatus := ClientStatus.accepted, timeRemaining := 115,
    error := "", processing := false, payments := [] }

/-- Closed form of the no-response countdown trace: pending and counting down
until second 120, then timeout from second 121 on. -/
theorem pendingRun_spec (n : Nat) :
    pendingRun n =
      if n ≤ 120 then ClientState.mk ClientStatus.pending (120 - n)
      else ClientState.mk ClientStatus.timeout 0 := by
  induction n with
  | zero => rfl
  | succ n ih =>
    show tick (pendingRun n) = _
    rw [ih]
    rcases Nat.lt_trichotomy n 120 with h | h | h
    · rw [if_pos (Nat.le_of_lt h), if_pos (by omega : n + 1 ≤ 120)]
      unfold tick
      rw [if_pos ⟨rfl, show 0 < 120 - n by omega⟩]
      have e : 120 - n - 1 = 120 - (n + 1) := by omega
      simp [e]
    · subst h
      decide
    · rw [if_neg (by omega), if_neg (by omega)]
      decide

/-- Closed form of the customer-flow trace: pending and counting down for the
first four seconds, accepted with 116 seconds left from second 5 on. -/
theorem customerRun_spec (n : Nat) :
    customerRun n =
      if n < 5 then ClientState.mk ClientStatus.pending (120 - n)
      else ClientState.mk ClientStatus.accepted 116 := by
  induction n with
  | zero => rfl
  | succ n ih =>
    show (if n + 1 = 5 then simulatedAccept (customerRun n)
          else tick (customerRun n)) = _
    rw [ih]
    rcases Nat.lt_trichotomy (n + 1) 5 with h | h | h
    · rw [if_neg (by omega), if_pos (by omega), if_pos h]
      unfold tick
      rw [if_pos ⟨rfl, show 0 < 120 - n by omega⟩]
      have e : 120 - n - 1 = 120 - (n + 1) := by omega
      simp [e]
    · have hn : n = 4 := by omega
      subst hn
      decide
    · rw [if_neg (by omega), if_neg (by omega), if_neg (by omega)]
      decide

/-- C3: for every tier and every duration of the form base plus k increments
with k a natural number, calculatePrice returns basePrice plus k times the
incrementPrice; it is a pure function, so this fully determines its value. -/
theorem calculatePrice_linear (s : Service) (k : Nat) (h : s.increment ≠ 0) :
    calculatePrice (some s) (s.baseDuration + (k : Rat) * s.increment) =
      s.basePrice + (k : Rat) * s.incrementPrice := by
  simp only [calculatePrice]
  have e : s.baseDuration + (k : Rat) * s.increment - s.baseDuration
      = (k : Rat) * s.increment := by ring
  rw [e, mul_div_cancel_right₀ _ h]

/-- C3 witness: the tier with base duration 60 at price 80 and increment 30 at
price 40 prices a 120 minute duration at exactly 160. -/
theorem calculatePrice_linear_witness :
    calculatePrice (some stressbuster) 120 = 160 := by
  have h := calculatePrice_linear stressbuster 2 (by decide)
  have e1 : stressbuster.baseDuration + ((2 : Nat) : Rat) * stressbuster.increment
      = 120 := by norm_num [stressbuster]
  have e2 : stressbuster.basePrice + ((2 : Nat) : Rat) * stressbuster.incrementPrice
      = 160 := by norm_num [stressbuster]
  rw [e1, e2] at h
  exact h

/-- C9: calculatePrice applied to an absent service returns 0 for every
duration instead of failing. -/
theorem calculatePrice_none_zero (d : Rat) : calculatePrice none d = 0 := rfl

/-- C1 counterexample: a decline attempt arriving after the request has
already reached confirmed does not leave the stored status unchanged and is
not reported as a stale transition; handleBookingResponse overwrites the
stored status with declined. -/
theorem stale_decline_overwrites_confirmed :
    confirmedBooking.status = DbStatus.confirmed ∧
    (handleBookingResponse confirmedBooking therapistDeclineResponse).status
      = DbStatus.declined ∧
    DbStatus.declined ≠ DbStatus.confirmed :=
  ⟨rfl, rfl, by decide⟩

/-- C1 amended: handleBookingResponse is not a compare-and-set; it writes the
given response over whatever status the booking currently has, leaving the
other columns untouched, and no StaleTransitionIgnored signal exists in the
code. -/
theorem handleBookingResponse_unconditional (b : Booking) (r : DbStatus) :
    (handleBookingResponse b r).status = r ∧
    (handleBookingResponse b r).customerId = b.customerId ∧
    (handleBookingResponse b r).therapistId = b.therapistId ∧
    (handleBookingResponse b r).price = b.price :=
  ⟨rfl, rfl, rfl, rfl⟩

/-- C2 counterexample: the Accept button moves a requested booking straight to
confirmed, the very status that payment success writes, so acceptance does
not produce a distinct non-terminal accepted state in the stored record. -/
theorem therapist_accept_writes_confirmed :
    requestedBooking.status = DbStatus.requested ∧
    (handleBookingResponse requestedBooking therapistAcceptResponse).status
      = DbStatus.confirmed ∧
    (handlePayment true acceptedFormState
      (PaymentResult.success ("pm_1"))).booking.status = DbStatus.confirmed := by
  refine ⟨rfl, rfl, ?_⟩
  decide

/-- C2 amended: in the therapist dashboard an accept writes confirmed to the
stored booking directly, with no deadline guard and no intermediate accepted
state; only the customer client holds a local accepted status, set by the
simulated response, and payment success then writes confirmed as well. -/
theorem accept_confirms_without_intermediate (b : Booking) (s : ClientState)
    (fs : PaymentFormState) (pm : String)
    (h : fs.requestStatus = ClientStatus.accepted) :
    (handleBookingResponse b therapistAcceptResponse).status = DbStatus.confirmed ∧
    (simulatedAccept s).status = ClientStatus.accepted ∧
    (handlePayment true fs (PaymentResult.success pm)).booking.status
      = DbStatus.confirmed := by
  refine ⟨rfl, rfl, ?_⟩
  unfold handlePayment
  rw [if_neg (by simp [h])]

/-- C2 witness: the amended statement at the sample booking, the initial
client state and the sample accepted payment state. -/
theorem accept_confirms_without_intermediate_witness :
    (handleBookingResponse requestedBooking therapistAcceptResponse).status
      = DbStatus.confirmed ∧
    (simulatedAccept initialClientState).status = ClientStatus.accepted ∧
    (handlePayment true acceptedFormState
      (PaymentResult.success ("pm_2"))).booking.status = DbStatus.confirmed :=
  accept_confirms_without_intermediate requestedBooking initialClientState
    acceptedFormState ("pm_2") rfl

/-- C4 counterexample: duration 45 violates the base 60 increment 30 rule, so
the spec demands an InvalidDuration failure, yet calculatePrice returns the
number 60 and createBookingRequest inserts a booking at that price. -/
theorem invalid_duration_priced_and_created :
    computePriceSpec stressbuster 45
      = Except.error PricingError.invalidDuration ∧
    calculatePrice (some stressbuster) 45 = 60 ∧
    (createBookingRequest ("cust1") invalidDurationData).map Booking.price
      = some 60 := by
  have hp : calculatePrice (some stressbuster) 45 = 60 := by
    norm_num [calculatePrice, stressbuster]
  have hs : computePriceSpec stressbuster 45
      = Except.error PricingError.invalidDuration := by
    unfold computePriceSpec
    rw [if_pos (Or.inl (by norm_num [stressbuster]))]
  have hm : (createBookingRequest ("cust1") invalidDurationData).map Booking.price
      = some (calculatePrice (some stressbuster) 45) := rfl
  rw [hm, hp]
  exact ⟨hs, rfl, rfl⟩

/-- C4 amended: calculatePrice performs no duration validation: for every tier
and every duration it returns basePrice plus the possibly fractional or
negative increment count times incrementPrice, and createBookingRequest
creates a booking carrying that price regardless of the duration. -/
theorem calculatePrice_no_validation (s : Service) (d : Rat) (u : String) :
    calculatePrice (some s) d
      = s.basePrice + (d - s.baseDuration) / s.increment * s.incrementPrice ∧
    ∃ b : Booking,
      createBookingRequest u (serviceStepSubmit bookedTemplate (some s) d)
        = some b ∧
      b.price = calculatePrice (some s) d ∧
      b.status = DbStatus.requested := by
  exact ⟨rfl, ⟨_, rfl, rfl, rfl⟩⟩

/-- C5 counterexample: in the no-response trace the request is timed out after
second 121, yet a late simulated accept overwrites that status with accepted
rather than being ignored as a stale transition. -/
theorem late_accept_overwrites_timeout :
    (pendingRun 121).status = ClientStatus.timeout ∧
    (simulatedAccept (pendingRun 121)).status = ClientStatus.accepted ∧
    ClientStatus.accepted ≠ ClientStatus.timeout := by
  have h := pendingRun_spec 121
  rw [if_neg (by omega)] at h
  rw [h]
  exact ⟨rfl, rfl, by decide⟩

/-- C5 amended: the countdown starts at a fixed 120 seconds; if the request is
still pending when the counter reaches 0 the effect sets the status to
timeout exactly once, the state being stable from second 121 on; but an
accept arriving after that is not ignored: it overwrites the status with
accepted, as no StaleTransitionIgnored signal exists. -/
theorem timeout_once_then_accept_overwrites (m : Nat) :
    initialClientState.timeRemaining = 120 ∧
    (pendingRun 121).status = ClientStatus.timeout ∧
    pendingRun (121 + m) = pendingRun 121 ∧
    (simulatedAccept (pendingRun (121 + m))).status = ClientStatus.accepted := by
  have h121 := pendingRun_spec 121
  rw [if_neg (by omega)] at h121
  have h := pendingRun_spec (121 + m)
  rw [if_neg (by omega)] at h
  refine ⟨rfl, ?_, ?_, ?_⟩
  · rw [h121]
  · rw [h, h121]
  · rw [h]
    rfl

/-- C6: the price is snapshotted by the service step, stored unchanged by
createBookingRequest, and no later operation changes it: a therapist
response rewrites only the status, and handlePayment never touches the
stored price in any branch. -/
theorem price_snapshot_immutable (b : Booking) (r : DbStatus) (ready : Bool)
    (s : PaymentFormState) (pr : PaymentResult) (u : String) (d : BookingData)
    (sv : Option Service) (du : Rat) :
    (serviceStepSubmit d sv du).price = calculatePrice sv du ∧
    (createBookingRequest u d).map Booking.price
      = (createBookingRequest u d).map (fun _ => d.price) ∧
    (handleBookingResponse b r).price = b.price ∧
    (handlePayment ready s pr).booking.price = s.booking.price := by
  refine ⟨rfl, ?_, rfl, ?_⟩
  · unfold createBookingRequest
    cases d.service <;> cases d.therapist <;> rfl
  · unfold handlePayment
    split
    · rfl
    · cases pr <;> rfl

/-- C7: along the pending countdown the reported remaining seconds equal
max 0 of 120 minus the elapsed seconds, hence clamp at 0 and are never
negative; moreover a tick never increases the counter and an accept leaves
it unchanged, so the value is monotonically non-increasing in any trace. -/
theorem remaining_clamped_monotone (n : Nat) (s : ClientState) :
    ((pendingRun n).timeRemaining : Int) = max 0 (120 - (n : Int)) ∧
    (tick s).timeRemaining ≤ s.timeRemaining ∧
    (simulatedAccept s).timeRemaining = s.timeRemaining := by
  refine ⟨?_, ?_, rfl⟩
  · rw [pendingRun_spec]
    split
    · simp only []
      omega
    · simp only []
      omega
  · unfold tick
    split
    · simp only []
      omega
    · split
      · exact Nat.le_refl _
      · exact Nat.le_refl _

/-- C8 counterexample: after a failed payment attempt on an accepted request
the client remains in accepted, the stored booking status is unchanged
rather than payment_failed, and the pay button is enabled again, so payment
is re-offered on the same request. -/
theorem payment_failure_allows_retry_counterexample :
    (handlePayment true acceptedFormState
      (PaymentResult.failure ("card_declined"))).requestStatus
      = ClientStatus.accepted ∧
    (handlePayment true acceptedFormState
      (PaymentResult.failure ("card_declined"))).booking.status
      = DbStatus.requested ∧
    payButtonEnabled true
      (handlePayment true acceptedFormState
        (PaymentResult.failure ("card_declined"))) = true := by
  decide

/-- C8 amended: a payment failure is not terminal: it only records the error
message and clears the processing flag, the client request status stays
accepted, the stored booking status is unchanged, and since the pay button
is enabled exactly when stripe is ready, processing is off and the status is
accepted, payment can be retried on the same request; no payment_failed
status exists in the code or schema. -/
theorem payment_failure_not_terminal (s : PaymentFormState) (msg : String)
    (h : s.requestStatus = ClientStatus.accepted) :
    (handlePayment true s (PaymentResult.failure msg)).requestStatus
      = ClientStatus.accepted ∧
    (handlePayment true s (PaymentResult.failure msg)).booking.status
      = s.booking.status ∧
    (handlePayment true s (PaymentResult.failure msg)).error = msg ∧
    (handlePayment true s (PaymentResult.failure msg)).processing = false := by
  unfold handlePayment
  rw [if_neg (by simp [h])]
  exact ⟨h, rfl, rfl, rfl⟩

/-- C8 witness: the amended statement at the sample accepted payment state. -/
theorem payment_failure_not_terminal_witness :
    (handlePayment true acceptedFormState
      (PaymentResult.failure ("err"))).requestStatus = ClientStatus.accepted ∧
    (handlePayment true acceptedFormState
      (PaymentResult.failure ("err"))).booking.status
      = acceptedFormState.booking.status ∧
    (handlePayment true acceptedFormState
      (PaymentResult.failure ("err"))).error = "err" ∧
    (handlePayment true acceptedFormState
      (PaymentResult.failure ("err"))).processing = false :=
  payment_failure_not_terminal acceptedFormState ("err") rfl

/-- C10: in the customer flow the simulated 5 second response moves every
successfully created request to accepted: the trace never reaches timeout at
any second, and from second 5 on the status is accepted. -/
theorem simulated_accept_precludes_timeout (n : Nat) :
    (customerRun n).status ≠ ClientStatus.timeout ∧
    (customerRun (5 + n)).status = ClientStatus.accepted := by
  have h1 := customerRun_spec n
  have h2 := customerRun_spec (5 + n)
  rw [if_neg (by omega)] at h2
  constructor
  · rw [h1]
    split <;> simp
  · rw [h2]

end Rejuvenator
